import Mathlib

/-!
Verification of the `hallo` project-planning library.

The repository models time-bounded financial projects: an `Allocation`
is a pair of UTC calendar dates, a `Project` couples an allocation with
a name and an approximate monetary value, and a `ProjectBuilder`
constructs projects through fluent consuming setters.

Embedding choices:
  - a `chrono::Date<Utc>` is a whole calendar day; we embed it as the
    signed number of days since an arbitrary epoch (`Int`), which is
    faithful to the total order and day arithmetic the repository uses;
  - a `chrono::Duration` is embedded as a signed day count (`Int`);
    every duration the repository constructs is a whole number of weeks,
    and adding a `Duration` to a `Date` advances it by the duration
    whole-day count, so day granularity is exact here;
  - the `u32` field `approx_value` is embedded as `Nat`: the repository
    performs no arithmetic on it, only stores and returns it;
  - `Allocation::default` and `ProjectBuilder::default` read the current
    day from the system clock; we pass that day in as a parameter
    `today`.
-/

namespace Hallo

/-- `chrono::Duration::weeks(n)`: a span of `n` weeks, i.e. `7 * n` days.
A UTC calendar day is embedded as `Int` (days since an arbitrary epoch)
and a time span as `Int` (a signed whole-day count). -/
def Duration.weeks (n : Int) : Int := 7 * n

/-- `TimeBoundError` from `traits.rs`: single variant, never produced. -/
inductive TimeBoundError where
  | InvalidDatesError
deriving DecidableEq, Repr

/-- `ProjectBuilderError` from `projects.rs`: single variant, never produced. -/
inductive ProjectBuilderError where
  | ZeroLengthDuration
deriving DecidableEq, Repr

/-- `Allocation` from `allocation.rs`: a start and an end date
(fields in source declaration order). -/
structure Allocation where
  end_date : Int
  start_date : Int
deriving DecidableEq, Repr

/-- `Allocation::duration`: `end_date - start_date`. -/
def Allocation.duration (a : Allocation) : Int :=
  a.end_date - a.start_date

/-- `Allocation::is_active_on`, with the same early-return structure as
the source: false when `search_date <= start_date`, false when
`search_date > end_date`, true otherwise. -/
def Allocation.is_active_on (a : Allocation) (search_date : Int) : Bool :=
  let search_too_early : Bool := decide (search_date ≤ a.start_date)
  if search_too_early then false
  else
    let search_too_late : Bool := decide (search_date > a.end_date)
    if search_too_late then false
    else true

/-- `Allocation::default`, with the system clock value passed in:
start = today + 3 weeks, end = start + 4 weeks. -/
def Allocation.default (today : Int) : Allocation :=
  let start := today + Duration.weeks 3
  { start_date := start, end_date := start + Duration.weeks 4 }

/-- `<Allocation as TimeBound>::set_start_date`: overwrites the start
date unconditionally and returns `Ok` of the new value. The mutation of
`&mut self` is made explicit by returning the updated allocation. -/
def Allocation.set_start_date (a : Allocation) (date : Int) :
    Allocation × Except TimeBoundError Int :=
  let a2 := { a with start_date := date }
  (a2, Except.ok a2.start_date)

/-- `<Allocation as TimeBound>::set_end_date`: overwrites the end date
unconditionally and returns `Ok` of the new value. -/
def Allocation.set_end_date (a : Allocation) (date : Int) :
    Allocation × Except TimeBoundError Int :=
  let a2 := { a with end_date := date }
  (a2, Except.ok a2.end_date)

/-- `Project` from `projects.rs`. -/
structure Project where
  allocation : Allocation
  name : String
  approx_value : Nat
deriving DecidableEq, Repr

/-- `Project::duration`. -/
def Project.duration (p : Project) : Int :=
  p.allocation.duration

/-- `Project::value`. -/
def Project.value (p : Project) : Nat :=
  p.approx_value

/-- `<Project as Contribution>::get_contribution_on`: the approximate
value when the allocation is active on the date, `0` otherwise. -/
def Project.get_contribution_on (p : Project) (date : Int) : Nat :=
  match p.allocation.is_active_on date with
  | true => p.approx_value
  | false => 0

/-- `ProjectBuilder` from `projects.rs`. -/
structure ProjectBuilder where
  allocation : Allocation
  name : String
  value : Nat
deriving DecidableEq, Repr

/-- `ProjectBuilder::default`, with the system clock value passed in. -/
def ProjectBuilder.default (today : Int) : ProjectBuilder :=
  { allocation := Allocation.default today
    name := "New Project"
    value := 20000 }

/-- `ProjectBuilder::start_date`: keeps the current duration and moves
the allocation so it starts on `date`. -/
def ProjectBuilder.start_date (b : ProjectBuilder) (date : Int) : ProjectBuilder :=
  let duration := b.allocation.duration
  { b with allocation := { start_date := date, end_date := date + duration } }

/-- `ProjectBuilder::value` (the fluent setter; named `set_value` here
because the field accessor already takes the source name). -/
def ProjectBuilder.set_value (b : ProjectBuilder) (value : Nat) : ProjectBuilder :=
  { b with value := value }

/-- `ProjectBuilder::name` (the fluent setter; named `set_name` here
because the field accessor already takes the source name). -/
def ProjectBuilder.set_name (b : ProjectBuilder) (name : String) : ProjectBuilder :=
  { b with name := name }

/-- `ProjectBuilder::duration`: keeps the current start date and sets
`end_date = start_date + duration`. -/
def ProjectBuilder.duration (b : ProjectBuilder) (duration : Int) : ProjectBuilder :=
  let start_date := b.allocation.start_date
  { b with allocation := { start_date := start_date, end_date := start_date + duration } }

/-- `ProjectBuilder::duration_weeks`: converts the week count and
delegates to `duration`. -/
def ProjectBuilder.duration_weeks (b : ProjectBuilder) (num_of_weeks : Int) : ProjectBuilder :=
  b.duration (Duration.weeks num_of_weeks)

/-- `ProjectBuilder::build`: unconditionally assembles the project. -/
def ProjectBuilder.build (b : ProjectBuilder) : Project :=
  { allocation := b.allocation
    approx_value := b.value
    name := b.name }

/-- Characterisation of `is_active_on` as a strict-lower, inclusive-upper
range test (shared helper). -/
lemma Allocation.is_active_on_eq_true_iff (a : Allocation) (d : Int) :
    a.is_active_on d = true ↔ a.start_date < d ∧ d ≤ a.end_date := by
  simp only [Allocation.is_active_on]
  by_cases h1 : d ≤ a.start_date <;> by_cases h2 : d > a.end_date <;>
    simp [h1, h2] <;> omega

/-- One fluent setter call on a `ProjectBuilder`, for reasoning about
arbitrary call chains. -/
inductive BuilderCall where
  | set_name (s : String)
  | set_value (n : Nat)
  | start_date (d : Int)
  | duration (d : Int)
  | duration_weeks (n : Int)
deriving DecidableEq, Repr

/-- Interpretation of one call as the corresponding source method. -/
def applyCall (b : ProjectBuilder) : BuilderCall → ProjectBuilder
  | BuilderCall.set_name s => b.set_name s
  | BuilderCall.set_value n => b.set_value n
  | BuilderCall.start_date d => b.start_date d
  | BuilderCall.duration d => b.duration d
  | BuilderCall.duration_weeks n => b.duration_weeks n

/-- A whole fluent chain applied in order. -/
def applyCalls (b : ProjectBuilder) (cs : List BuilderCall) : ProjectBuilder :=
  cs.foldl applyCall b

/-- Spec-side reading of a chain: the last name set, or the default when
no call sets the name. -/
def lastNameSet (cs : List BuilderCall) (dflt : String) : String :=
  cs.foldl (fun acc c =>
    match c with
    | BuilderCall.set_name s => s
    | _ => acc) dflt

/-- Spec-side reading of a chain: the last value set, or the default when
no call sets the value. -/
def lastValueSet (cs : List BuilderCall) (dflt : Nat) : Nat :=
  cs.foldl (fun acc c =>
    match c with
    | BuilderCall.set_value n => n
    | _ => acc) dflt

/-- Whether a call affects the allocation field. -/
def touchesAllocation : BuilderCall → Bool
  | BuilderCall.start_date _ => true
  | BuilderCall.duration _ => true
  | BuilderCall.duration_weeks _ => true
  | _ => false

/-- The action of an allocation-affecting call on the allocation alone,
mirroring the corresponding builder methods. -/
def applyAllocCall (a : Allocation) : BuilderCall → Allocation
  | BuilderCall.start_date d => { start_date := d, end_date := d + a.duration }
  | BuilderCall.duration d => { start_date := a.start_date, end_date := a.start_date + d }
  | BuilderCall.duration_weeks n =>
      { start_date := a.start_date, end_date := a.start_date + Duration.weeks n }
  | _ => a

/-- Spec-side reading of a chain: the allocation determined by the
allocation-affecting calls alone, applied in order to the default. -/
def allocationOfCalls (cs : List BuilderCall) (a : Allocation) : Allocation :=
  (cs.filter touchesAllocation).foldl applyAllocCall a

lemma applyCalls_name (cs : List BuilderCall) (b : ProjectBuilder) :
    (applyCalls b cs).name = lastNameSet cs b.name := by
  induction cs generalizing b with
  | nil => rfl
  | cons c cs ih =>
    cases c <;>
      simp [applyCalls, lastNameSet, applyCall, ProjectBuilder.set_name,
        ProjectBuilder.set_value, ProjectBuilder.start_date, ProjectBuilder.duration,
        ProjectBuilder.duration_weeks, List.foldl] <;>
      exact ih _

lemma applyCalls_value (cs : List BuilderCall) (b : ProjectBuilder) :
    (applyCalls b cs).value = lastValueSet cs b.value := by
  induction cs generalizing b with
  | nil => rfl
  | cons c cs ih =>
    cases c <;>
      simp [applyCalls, lastValueSet, applyCall, ProjectBuilder.set_name,
        ProjectBuilder.set_value, ProjectBuilder.start_date, ProjectBuilder.duration,
        ProjectBuilder.duration_weeks, List.foldl] <;>
      exact ih _

lemma applyCalls_allocation (cs : List BuilderCall) (b : ProjectBuilder) :
    (applyCalls b cs).allocation = allocationOfCalls cs b.allocation := by
  induction cs generalizing b with
  | nil => rfl
  | cons c cs ih =>
    cases c <;>
      simp [applyCalls, allocationOfCalls, applyCall, applyAllocCall, touchesAllocation,
        ProjectBuilder.set_name, ProjectBuilder.set_value, ProjectBuilder.start_date,
        ProjectBuilder.duration, ProjectBuilder.duration_weeks, Allocation.duration,
        List.filter, List.foldl] <;>
      exact ih _

/-- Claim C1, counterexample: on the allocation with start date and end
date both equal to day 0, querying the end date itself returns false,
although the claim asserts is_active_on is true whenever the queried
date equals the end date. -/
theorem claim_C1_counterexample :
    (Allocation.mk 0 0).is_active_on (Allocation.end_date (Allocation.mk 0 0)) = false := by
  decide

/-- Claim C1 (amended): is_active_on holds exactly when the date lies
strictly after the start date and on or before the end date; the start
date itself is never active, and the end date is active provided the
start date lies strictly before the end date. -/
theorem claim_C1_is_active_on_boundary (a : Allocation) (d : Int) :
    (a.is_active_on d = true ↔ a.start_date < d ∧ d ≤ a.end_date) ∧
    a.is_active_on a.start_date = false ∧
    (a.start_date < a.end_date → a.is_active_on a.end_date = true) := by
  refine ⟨a.is_active_on_eq_true_iff d, ?_, ?_⟩
  · cases h : a.is_active_on a.start_date
    · rfl
    · have := (a.is_active_on_eq_true_iff a.start_date).mp h
      omega
  · intro hlt
    exact (a.is_active_on_eq_true_iff a.end_date).mpr ⟨hlt, le_refl _⟩

/-- Claim C1 witness: the amended boundary facts instantiated on the
allocation running from day 0 to day 10. -/
theorem claim_C1_witness : (Allocation.mk 10 0).is_active_on 10 = true :=
  (claim_C1_is_active_on_boundary (Allocation.mk 10 0) 10).2.2 (by decide)

/-- Claim C2: get_contribution_on returns the approximate value when the
allocation is active on the date and 0 otherwise. -/
theorem claim_C2_contribution (p : Project) (d : Int) :
    (p.allocation.is_active_on d = true → p.get_contribution_on d = p.approx_value) ∧
    (p.allocation.is_active_on d = false → p.get_contribution_on d = 0) := by
  constructor <;> intro h <;> simp [Project.get_contribution_on, h]

/-- Claim C2 witness: a project worth 7 active on days 1 through 10
contributes 7 on day 5 and 0 on day 11. -/
theorem claim_C2_witness :
    (Project.mk (Allocation.mk 10 0) "p" 7).get_contribution_on 5 = 7 ∧
    (Project.mk (Allocation.mk 10 0) "p" 7).get_contribution_on 11 = 0 :=
  ⟨(claim_C2_contribution (Project.mk (Allocation.mk 10 0) "p" 7) 5).1 (by decide),
   (claim_C2_contribution (Project.mk (Allocation.mk 10 0) "p" 7) 11).2 (by decide)⟩

/-- Claim C3: duration is exactly the signed difference of the end and
start dates, negative whenever the end date precedes the start date. -/
theorem claim_C3_duration (a : Allocation) :
    a.duration = a.end_date - a.start_date ∧
    (a.end_date < a.start_date → a.duration < 0) := by
  unfold Allocation.duration
  exact ⟨rfl, by omega⟩

/-- Claim C3 witness: an allocation ending on day 0 after starting on
day 3 has the negative duration minus 3. -/
theorem claim_C3_witness : (Allocation.mk 0 3).duration < 0 :=
  (claim_C3_duration (Allocation.mk 0 3)).2 (by decide)

/-- Claim C4: the start_date setter preserves the duration, sets the
start to the given date and the end to that date plus the old duration;
name and value are untouched. -/
theorem claim_C4_start_date_frame (b : ProjectBuilder) (d : Int) :
    (b.start_date d).allocation.duration = b.allocation.duration ∧
    (b.start_date d).allocation.start_date = d ∧
    (b.start_date d).allocation.end_date = d + b.allocation.duration ∧
    (b.start_date d).name = b.name ∧
    (b.start_date d).value = b.value := by
  refine ⟨?_, rfl, rfl, rfl, rfl⟩
  simp [ProjectBuilder.start_date, Allocation.duration]

/-- Claim C5: the duration setter keeps the start date and moves the end
date to start plus the given duration; name and value are untouched. -/
theorem claim_C5_duration_frame (b : ProjectBuilder) (D : Int) :
    (b.duration D).allocation.start_date = b.allocation.start_date ∧
    (b.duration D).allocation.end_date = b.allocation.start_date + D ∧
    (b.duration D).name = b.name ∧
    (b.duration D).value = b.value :=
  ⟨rfl, rfl, rfl, rfl⟩

/-- Claim C6: duration_weeks converts the week count into a day count
and delegates to the duration setter, producing an identical builder
state. -/
theorem claim_C6_duration_weeks_delegates (b : ProjectBuilder) (n : Int) :
    b.duration_weeks n = b.duration (Duration.weeks n) ∧
    (b.duration_weeks n).allocation.end_date = b.allocation.start_date + 7 * n :=
  ⟨rfl, rfl⟩

/-- Claim C7: no operation fails: both TimeBound setters answer Ok for
every input, and build unconditionally assembles a project from the
accumulated fields, whatever the duration (zero included). -/
theorem claim_C7_no_failure (a : Allocation) (d : Int) (b : ProjectBuilder) :
    (a.set_start_date d).2 = Except.ok d ∧
    (a.set_end_date d).2 = Except.ok d ∧
    b.build = Project.mk b.allocation b.name b.value ∧
    b.build.duration = b.allocation.duration :=
  ⟨rfl, rfl, rfl, rfl⟩

/-- Claim C8: for any current day, the default builder builds a project
named New Project worth 20000 that starts three weeks from today and
runs exactly four weeks. -/
theorem claim_C8_default_build (today : Int) :
    ((ProjectBuilder.default today).build).name = "New Project" ∧
    ((ProjectBuilder.default today).build).value = 20000 ∧
    ((ProjectBuilder.default today).build).allocation.start_date
        = today + Duration.weeks 3 ∧
    ((ProjectBuilder.default today).build).duration = Duration.weeks 4 := by
  refine ⟨rfl, rfl, rfl, ?_⟩
  simp [ProjectBuilder.default, ProjectBuilder.build, Project.duration,
    Allocation.default, Allocation.duration, Duration.weeks]

/-- Claim C9: building after any fluent chain reads back the last name
set, the last value set, and the allocation determined by the
allocation-affecting calls in order, with defaults for fields never
set. -/
theorem claim_C9_roundtrip (cs : List BuilderCall) (today : Int) :
    ((applyCalls (ProjectBuilder.default today) cs).build).name
        = lastNameSet cs "New Project" ∧
    ((applyCalls (ProjectBuilder.default today) cs).build).value
        = lastValueSet cs 20000 ∧
    ((applyCalls (ProjectBuilder.default today) cs).build).allocation
        = allocationOfCalls cs (Allocation.default today) :=
  ⟨applyCalls_name cs (ProjectBuilder.default today),
   applyCalls_value cs (ProjectBuilder.default today),
   applyCalls_allocation cs (ProjectBuilder.default today)⟩

/-- Claim C10: an allocation whose start date is on or after its end
date is active on no date, so a project owning it contributes 0 on
every date. -/
theorem claim_C10_degenerate_allocation (p : Project) (d : Int)
    (h : p.allocation.start_date ≥ p.allocation.end_date) :
    p.allocation.is_active_on d = false ∧ p.get_contribution_on d = 0 := by
  have hfalse : p.allocation.is_active_on d = false := by
    cases hb : p.allocation.is_active_on d
    · rfl
    · have := (p.allocation.is_active_on_eq_true_iff d).mp hb
      omega
  exact ⟨hfalse, by simp [Project.get_contribution_on, hfalse]⟩

/-- Claim C10 witness: a project whose allocation starts on day 5 and
ends on day 0 is inactive and contributes nothing on day 3. -/
theorem claim_C10_witness :
    (Project.mk (Allocation.mk 0 5) "p" 9).allocation.is_active_on 3 = false ∧
    (Project.mk (Allocation.mk 0 5) "p" 9).get_contribution_on 3 = 0 :=
  claim_C10_degenerate_allocation (Project.mk (Allocation.mk 0 5) "p" 9) 3 (by decide)

end Hallo
